import Mathlib

/-!
Verification of the bronze-layer data-ingestion utilities of the
Portfolio-Optimization-Pipeline repository.

The Python sources are shallowly embedded as pure Lean functions:

* JSON-decoded payloads become the inductive `Json`; the Python value
  `None` is represented by `Json.null` (exactly as `json.loads` decodes
  JSON `null` to Python `None`).
* Exceptions become `Except PyErr`; the Python error subclasses that can
  escape the modelled code are `ValueError`, `AttributeError` and
  `TypeError`, plus a catch-all constructor for arbitrary exceptions
  raised by the external SEC downloader.
* The process environment (`os.getenv`) is a function `Env`.
* The network is an oracle `Transport` mapping the index of the GET call
  (how many GETs were issued before) and the query parameters to a
  transport outcome, so that successive calls may observe different
  server states.
* Logging and I/O side effects are threaded explicitly through an
  `Effects` record: emitted log records, issued GET requests, and
  delegated SEC download calls.
-/

/-- A JSON-decoded Python value.  `Json.null` is Python `None`. -/
inductive Json where
  | null : Json
  | str : String → Json
  | num : Int → Json
  | obj : List (String × Json) → Json
  | arr : List Json → Json

/-- Query parameters: a Python `dict[str, str]` in insertion order. -/
abbrev Params := List (String × String)

/-- Log levels of the Python `logging` module used by the repository. -/
inductive LogLevel where
  | debug | info | warning | error | critical
deriving DecidableEq

/-- One emitted log record. -/
structure LogEntry where
  level : LogLevel
  msg : String
deriving DecidableEq

/-- Observable side effects of a run: log records, issued HTTP GET
requests (their query parameters, in order), and delegated SEC download
calls (form code and ticker, in order). -/
structure Effects where
  logs : List LogEntry
  requests : List Params
  downloads : List (String × String)
deriving DecidableEq

def Effects.empty : Effects := ⟨[], [], []⟩

def Effects.log (eff : Effects) (lv : LogLevel) (m : String) : Effects :=
  { eff with logs := eff.logs ++ [⟨lv, m⟩] }

def Effects.addLogs (eff : Effects) (ls : List LogEntry) : Effects :=
  { eff with logs := eff.logs ++ ls }

def Effects.request (eff : Effects) (p : Params) : Effects :=
  { eff with requests := eff.requests ++ [p] }

def Effects.download (eff : Effects) (form ticker : String) : Effects :=
  { eff with downloads := eff.downloads ++ [(form, ticker)] }

/-- Python exceptions that can escape the embedded code. -/
inductive PyErr where
  | valueError : String → PyErr
  | attributeError : String → PyErr
  | typeError : String → PyErr
  | keyError : String → PyErr
  | otherError : String → PyErr
deriving DecidableEq

/-- The process environment: `os.getenv`. -/
abbrev Env := String → Option String

/-- Python `str.strip()`: drop leading and trailing whitespace
(modelled on the character list so that it evaluates by kernel
reduction). -/
def pyStrip (s : String) : String :=
  ⟨((s.data.dropWhile Char.isWhitespace).reverse.dropWhile Char.isWhitespace).reverse⟩

/-- Python truthiness of an optional string: `None` and `""` are falsy. -/
def pyTruthy : Option String → Bool
  | none => false
  | some s => !(s == "")

/-- Outcome of one HTTP GET as seen by `APIUtils._fetch_data`:
either a decoded JSON body, or one of the failures it catches
(`requests.exceptions.RequestException` from the connection or from
`raise_for_status`, or `ValueError` from `response.json()`). -/
inductive TransportResult where
  | success : Json → TransportResult
  | connectionError : String → TransportResult
  | httpError : Nat → TransportResult
  | invalidJson : String → TransportResult

/-- The data `APIUtils._fetch_data` hands back for a given transport
outcome: the decoded body on success, Python `None` on any caught
failure. -/
def TransportResult.toData : TransportResult → Json
  | .success body => body
  | .connectionError _ => Json.null
  | .httpError _ => Json.null
  | .invalidJson _ => Json.null

/-- The network oracle: call index (number of GETs issued before this
one) and query parameters to outcome. -/
abbrev Transport := Nat → Params → TransportResult

/-- Python `d[k]`-style lookup in an insertion-ordered association list. -/
def dictGet {α : Type} : List (String × α) → String → Option α
  | [], _ => none
  | (k', v) :: rest, k => if k' = k then some v else dictGet rest k

/-- Python `d[k] = v`: replace in place if the key exists, else append. -/
def dictInsert {α : Type} : List (String × α) → String → α → List (String × α)
  | [], k, v => [(k, v)]
  | (k', v') :: rest, k, v =>
    if k' = k then (k, v) :: rest else (k', v') :: dictInsert rest k v

/-- The Bool Python `key in data` evaluates to on the payloads where it
does not raise: key membership for a dict, element equality for a list,
substring test for a string.  Only consulted through `pyContains`, which
screens out the raising payloads first. -/
def pyContainsB (key : String) : Json → Bool
  | .obj kvs => kvs.any (fun kv => decide (kv.1 = key))
  | .arr xs => xs.any (fun x => match x with | .str s => decide (s = key) | _ => false)
  | .str s => !((s.splitOn key).length == 1)
  | _ => false

/-- Python `key in data` for a decoded JSON value: on a number or on
`None` the membership test itself raises `TypeError` (the argument is
not iterable); on a dict, list or string it evaluates to
`pyContainsB`. -/
def pyContains (key : String) : Json → Except PyErr Bool
  | .num _ => .error (.typeError "argument of type int is not iterable")
  | .null => .error (.typeError "argument of type NoneType is not iterable")
  | data => .ok (pyContainsB key data)

/-- Python `data[key]` with a string key: a dict lookup succeeds (or
raises `KeyError`); indexing a list or a string with a string key raises
`TypeError`. -/
def pyIndex : Json → String → Except PyErr Json
  | .obj kvs, k =>
    match dictGet kvs k with
    | some v => .ok v
    | none => .error (.keyError k)
  | .arr _, _ => .error (.typeError "list indices must be integers or slices, not str")
  | .str _, _ => .error (.typeError "string indices must be integers")
  | _, _ => .error (.typeError "object is not subscriptable")

/-- Abbreviated `str()` rendering of a value, used only inside log
messages (the exact text of a log message is not load-bearing for any
claim). -/
def Json.render : Json → String
  | .null => "None"
  | .str s => s
  | .num n => toString n
  | .obj _ => "<dict>"
  | .arr _ => "<list>"

namespace APIUtils

def DEFAULT_TIMEOUT : Nat := 10

/-- `APIUtils._get_api_key`: read the key from the environment; when
`os.getenv` returns `None`, log at error level and raise `ValueError`.
(Note: an empty-string value is NOT `None` and is returned as a key.) -/
def get_api_key (env : Env) (name_key : String) : Except PyErr String × List LogEntry :=
  match env name_key with
  | none =>
    (.error (.valueError "API Key missing."),
     [⟨.error, name_key ++ " API key is missing. Please check your environment variables."⟩])
  | some k => (.ok k, [])

/-- `APIUtils._fetch_data`: one GET against `cls.BASE_URL`; on success
return the decoded JSON, on any caught failure
(`requests.exceptions.RequestException` or `ValueError` from JSON
decoding) log at error level and return `None`. -/
def fetch_data (transport : Transport) (base_url : String) (params : Params)
    (eff : Effects) : Json × Effects :=
  let eff := eff.log .info ("Fetching data from " ++ base_url ++ ".")
  let i := eff.requests.length
  let eff := eff.request params
  match transport i params with
  | .success body => (body, eff.log .info "Data fetched successfully.")
  | .connectionError m => (Json.null, eff.log .error ("Request failed: " ++ m))
  | .httpError code => (Json.null, eff.log .error ("Request failed: HTTP error " ++ toString code))
  | .invalidJson m => (Json.null, eff.log .error ("Request failed: " ++ m))

/-- `APIUtils._validate_response`: classify a payload.  `None` and the
two sentinel keys yield `None`; anything else is returned unchanged.
Exceptions propagate (hence the `Except`): the membership test
`"Error Message" in data` itself raises `TypeError` on a non-iterable
payload such as a bare number, and when a sentinel is found the error
f-string indexes `data` with a string key, which raises `TypeError` on
a list or string payload — in both cases before anything is logged. -/
def validate_response (data : Json) (symbol : String) :
    Except PyErr Json × List LogEntry :=
  if let Json.null := data then
    (.ok Json.null, [⟨.error, "No data returned for " ++ symbol ++ "."⟩])
  else
    match pyContains "Error Message" data with
    | .error e => (.error e, [])
    | .ok true =>
      match pyIndex data "Error Message" with
      | .error e => (.error e, [])
      | .ok v =>
        (.ok Json.null, [⟨.error, "Error fetching data for " ++ symbol ++ ": " ++ v.render⟩])
    | .ok false =>
      match pyContains "Note" data with
      | .error e => (.error e, [])
      | .ok true =>
        match pyIndex data "Note" with
        | .error e => (.error e, [])
        | .ok v =>
          (.ok Json.null, [⟨.warning, "Rate limit hit for " ++ symbol ++ ": " ++ v.render⟩])
      | .ok false =>
        (.ok data, [])

end APIUtils

/-- The payloads on which `validate_response` is exception-free:
mappings and `None` always; a bare number never (the membership test
itself raises `TypeError`); a list or string only when it contains
neither sentinel (else the f-string indexing raises `TypeError`). -/
def validateSafe : Json → Bool
  | .obj _ => true
  | .null => true
  | .num _ => false
  | b => !(pyContainsB "Error Message" b || pyContainsB "Note" b)

namespace AlphaVantage

def BASE_URL : String := "https://www.alphavantage.co/query"

/-- `AlphaVantageAPIFetcher._setup_params`: the query-parameter dict, in
literal order; building it reads the API key (which may raise). -/
def setup_params (env : Env) (symbol : String) : Except PyErr Params × List LogEntry :=
  match APIUtils.get_api_key env "API_ALPHA_VANTAGE_KEY" with
  | (.error e, logs) => (.error e, logs)
  | (.ok key, logs) =>
    (.ok [("function", "HISTORICAL_OPTIONS"), ("symbol", symbol),
          ("apikey", key), ("outputsize", "full")], logs)

/-- `AlphaVantageAPIFetcher.fetch_data`: build params, fetch, call
`_validate_response` — whose RESULT IS DISCARDED (though an exception it
raises propagates) — and return the raw fetched `data`. -/
def fetch_data (env : Env) (transport : Transport) (symbol : String)
    (eff : Effects) : Except PyErr Json × Effects :=
  match setup_params env symbol with
  | (.error e, logs) => (.error e, eff.addLogs logs)
  | (.ok params, logs) =>
    let eff := eff.addLogs logs
    let (data, eff) := APIUtils.fetch_data transport BASE_URL params eff
    match APIUtils.validate_response data symbol with
    | (.error e, vlogs) => (.error e, eff.addLogs vlogs)
    | (.ok _, vlogs) => (.ok data, eff.addLogs vlogs)

end AlphaVantage

/-- The batch loop shared (by copy-paste, as the spec notes) by
`fetch_batch_data` and `fetch_batch_series`: iterate the identifiers in
input order, log one info line before each fetch, call the per-item
fetcher, store its result under the identifier with Python dict
insertion; an exception from the per-item fetcher propagates and aborts
the loop. -/
def batch_loop (logPrefix : String)
    (fetchOne : String → Effects → Except PyErr Json × Effects) :
    List String → List (String × Json) → Effects →
    Except PyErr (List (String × Json)) × Effects
  | [], results, eff => (.ok results, eff)
  | s :: rest, results, eff =>
    let eff := eff.log .info (logPrefix ++ s)
    match fetchOne s eff with
    | (.error e, eff) => (.error e, eff)
    | (.ok data, eff) => batch_loop logPrefix fetchOne rest (dictInsert results s data) eff

namespace AlphaVantage

/-- `AlphaVantageAPIFetcher.fetch_batch_data`. -/
def fetch_batch_data (env : Env) (transport : Transport) (symbols : List String)
    (eff : Effects) : Except PyErr (List (String × Json)) × Effects :=
  batch_loop "Fetching data for symbol: " (fetch_data env transport) symbols [] eff

end AlphaVantage

namespace Fred

def BASE_URL : String := "https://api.stlouisfed.org/fred/series/observations"

/-- `FredAPIFetch._setup_params`: required fields in literal order, then
each optional field appended only when truthy (Python `if x:` — `None`
and the empty string are both omitted). -/
def setup_params (env : Env) (series_id : String)
    (observation_start observation_end frequency : Option String) :
    Except PyErr Params × List LogEntry :=
  match APIUtils.get_api_key env "API_FREDAPI_KEY" with
  | (.error e, logs) => (.error e, logs)
  | (.ok key, logs) =>
    let params : Params := [("series_id", series_id), ("api_key", key), ("file_type", "json")]
    let params := if pyTruthy observation_start then
        dictInsert params "observation_start" (observation_start.getD "") else params
    let params := if pyTruthy observation_end then
        dictInsert params "observation_end" (observation_end.getD "") else params
    let params := if pyTruthy frequency then
        dictInsert params "frequency" (frequency.getD "") else params
    (.ok params, logs)

/-- `FredAPIFetch.fetch_data`: build params, fetch, then call
`.get("observations", [])` directly on the fetch result.  When
`_fetch_data` returned `None` (any transport failure) or a non-dict
body, that attribute access raises `AttributeError`.  The subsequent
`_validate_response` call is applied to the extracted value; its result
is discarded (but an exception it raises propagates) and the extracted
value is returned. -/
def fetch_data (env : Env) (transport : Transport) (series_id : String)
    (eff : Effects) : Except PyErr Json × Effects :=
  match setup_params env series_id none none none with
  | (.error e, logs) => (.error e, eff.addLogs logs)
  | (.ok params, logs) =>
    let eff := eff.addLogs logs
    let (data0, eff) := APIUtils.fetch_data transport BASE_URL params eff
    match data0 with
    | .obj kvs =>
      let data := (dictGet kvs "observations").getD (Json.arr [])
      match APIUtils.validate_response data series_id with
      | (.error e, vlogs) => (.error e, eff.addLogs vlogs)
      | (.ok _, vlogs) => (.ok data, eff.addLogs vlogs)
    | .null => (.error (.attributeError "NoneType object has no attribute get"), eff)
    | _ => (.error (.attributeError "object has no attribute get"), eff)

/-- `FredAPIFetch.fetch_batch_series`. -/
def fetch_batch_series (env : Env) (transport : Transport) (series_ids : List String)
    (eff : Effects) : Except PyErr (List (String × Json)) × Effects :=
  batch_loop "Fetching data for series id: " (fetch_data env transport) series_ids [] eff

end Fred

namespace SecEdgar

def DOWNLOAD_PATH : String := "sec-fillings"

/-- `SecEdgarData._validate_company_name`: `if not name:` rejects both
an unset variable and the empty string; then the stripped name must be
non-empty. -/
def validate_company_name (name : Option String) : Except PyErr String × List LogEntry :=
  if !(pyTruthy name) then
    (.error (.valueError "SEC_EDGAR_NAME environment variable required"),
     [⟨.error, "Company name environment variable (SEC_EDGAR_NAME) not set"⟩])
  else
    let stripped_name := pyStrip (name.getD "")
    if stripped_name == "" then
      (.error (.valueError "Company name cannot be empty"),
       [⟨.error, "Company name cannot be empty"⟩])
    else
      (.ok stripped_name, [])

/-- `SecEdgarData._validate_company_email_address`.  The external
`email_validator` library is modelled as an oracle predicate
`emailValid`; the normalized address it returns is modelled as the input
itself. -/
def validate_company_email_address (emailValid : String → Bool) (email : Option String) :
    Except PyErr String × List LogEntry :=
  if !(pyTruthy email) then
    (.error (.valueError "SEC_EDGAR_EMAIL environment variable required"),
     [⟨.error, "Email environment variable (SEC_EDGAR_EMAIL) not set"⟩])
  else
    let e := email.getD ""
    if emailValid e then
      (.ok e, [])
    else
      (.error (.valueError ("Invalid email address: " ++ e)),
       [⟨.error, "Invalid email format"⟩])

/-- The external `sec_edgar_downloader.Downloader` collaborator: only
its construction arguments are observable here. -/
structure Downloader where
  company_name : String
  email_address : String
  download_folder : String

/-- `SecEdgarData.get_downloader`: validate both credentials, then build
the collaborator; a `ValueError` is logged at critical level and
re-raised.  (`_get_download_path` only creates a directory and returns
the constant `DOWNLOAD_PATH`.) -/
def get_downloader (emailValid : String → Bool) (env : Env) :
    Except PyErr Downloader × List LogEntry :=
  match validate_company_name (env "SEC_EDGAR_NAME") with
  | (.error e, logs) =>
    (.error e, logs ++ [⟨.critical, "Configuration error: " ++ "ValueError"⟩])
  | (.ok company_name, logs) =>
    match validate_company_email_address emailValid (env "SEC_EDGAR_EMAIL") with
    | (.error e, logs2) =>
      (.error e, logs ++ logs2 ++ [⟨.critical, "Configuration error: " ++ "ValueError"⟩])
    | (.ok email, logs2) =>
      (.ok ⟨company_name, email, DOWNLOAD_PATH⟩,
       logs ++ logs2 ++ [⟨.info, "Creating SEC Downloader with valid credentials"⟩])

/-- The inner `for description, form_code in filing_types.items():` loop
of `download_filings`.  `dlGet form_code ticker limit` is the delegated
`dl.get(...)` call: `none` means it returned normally, `some e` that it
raised `e`; any raise is caught and logged at error level. -/
def download_types_loop (dlGet : String → String → Nat → Option PyErr) (ticker : String) :
    List (String × String) → Nat → Effects → Effects
  | [], _, eff => eff
  | (description, form_code) :: rest, limit, eff =>
    let eff := eff.log .info ("Downloading " ++ description ++ " filings for " ++ ticker ++ "...")
    let eff := eff.download form_code ticker
    let eff :=
      match dlGet form_code ticker limit with
      | none =>
        eff.log .info ("Successfully downloaded " ++ description ++ " filings for " ++ ticker ++ ".")
      | some _ =>
        eff.log .error ("Error downloading " ++ description ++ " filings for " ++ ticker)
    download_types_loop dlGet ticker rest limit eff

/-- The outer `for ticker in tickers:` loop of `download_filings`. -/
def download_tickers_loop (dlGet : String → String → Nat → Option PyErr) :
    List String → List (String × String) → Nat → Effects → Effects
  | [], _, _, eff => eff
  | ticker :: rest, filing_types, limit, eff =>
    let eff := eff.log .info ("Processing ticker: " ++ ticker)
    let eff := download_types_loop dlGet ticker filing_types limit eff
    download_tickers_loop dlGet rest filing_types limit eff

/-- `SecEdgarData.download_filings`: build the downloader (its failure
propagates), then run the nested loops; every per-call exception is
caught inside the inner loop, so after `get_downloader` succeeds the
function always returns normally. -/
def download_filings (emailValid : String → Bool) (env : Env)
    (dlGet : String → String → Nat → Option PyErr) (tickers : List String)
    (filing_types : List (String × String)) (filings_per_ticker : Nat)
    (eff : Effects) : Except PyErr Unit × Effects :=
  match get_downloader emailValid env with
  | (.error e, logs) => (.error e, eff.addLogs logs)
  | (.ok _, logs) =>
    let eff := eff.addLogs logs
    (.ok (), download_tickers_loop dlGet tickers filing_types filings_per_ticker eff)

end SecEdgar

namespace LoggingSetup

/-- What the filesystem and the YAML parser make of a configuration
path: the file is absent, unreadable as YAML (`yaml.YAMLError`), reads
as YAML but not as a mapping (the explicit `ValueError`), is a mapping
rejected by `logging.config.dictConfig` (`ValueError`), or is valid. -/
inductive ConfigFile where
  | absent
  | invalidYaml
  | notDict
  | dictConfigError
  | valid
deriving DecidableEq

/-- One application of a logging configuration:
`logging.basicConfig(level=WARNING, ...)` or
`logging.config.dictConfig` of the file at `path`. -/
inductive AppliedConfig where
  | basicWarning
  | fromFile : String → AppliedConfig
deriving DecidableEq

/-- The mutable class/process state of `LoggingSetup` plus the root
logger records: the `_is_configured` flag and the configurations applied
so far, in order. -/
structure LogState where
  is_configured : Bool
  applied : List AppliedConfig
  logs : List LogEntry
deriving DecidableEq

/-- `LoggingSetup._setup_logging`.  `fs` is the filesystem/parser
oracle, `default_config_path` the value of
`LOGGING_CONFIG_PATH` captured in `_DEFAULT_CONFIG_PATH`, `config_path`
the optional argument.  Mirrors the source: an already-configured state
returns immediately; `config_path or cls._DEFAULT_CONFIG_PATH` uses
Python truthiness; a missing (falsy) path raises `ValueError`; a missing
file or a caught parse/config error falls back to
`logging.basicConfig(level=WARNING)`; every non-raising path sets
`_is_configured`. -/
def setup_logging (fs : String → ConfigFile) (default_config_path : Option String)
    (config_path : Option String) (st : LogState) : Except PyErr Unit × LogState :=
  if st.is_configured then
    (.ok (), st)
  else
    let path := if pyTruthy config_path then config_path else default_config_path
    if !(pyTruthy path) then
      (.error (.valueError "Logging configuration path is not set. Ensure the LOGGING_CONFIG_PATH environment variable is defined."), st)
    else
      let p := path.getD ""
      match fs p with
      | .absent =>
        (.ok (), { st with is_configured := true,
                           applied := st.applied ++ [.basicWarning],
                           logs := st.logs ++ [⟨.warning, "Logging configuration file not found at " ++ p ++ ". Using basic configuration."⟩] })
      | .valid =>
        (.ok (), { st with is_configured := true,
                           applied := st.applied ++ [.fromFile p],
                           logs := st.logs ++ [⟨.info, "Logging setup complete using configuration from: " ++ p⟩] })
      | .invalidYaml =>
        (.ok (), { st with is_configured := true,
                           applied := st.applied ++ [.basicWarning],
                           logs := st.logs ++ [⟨.warning, "Failed to load logging configuration from " ++ p ++ ". Using basic configuration."⟩] })
      | .notDict =>
        (.ok (), { st with is_configured := true,
                           applied := st.applied ++ [.basicWarning],
                           logs := st.logs ++ [⟨.warning, "Failed to load logging configuration from " ++ p ++ ": Malformed logging configuration file. Using basic configuration."⟩] })
      | .dictConfigError =>
        (.ok (), { st with is_configured := true,
                           applied := st.applied ++ [.basicWarning],
                           logs := st.logs ++ [⟨.warning, "Failed to load logging configuration from " ++ p ++ ". Using basic configuration."⟩] })

/-- `LoggingSetup.get_logger`: lazily configure, then return the named
logger (modelled by its name). -/
def get_logger (fs : String → ConfigFile) (default_config_path : Option String)
    (logger_name : String) (st : LogState) : Except PyErr String × LogState :=
  if !st.is_configured then
    match setup_logging fs default_config_path none st with
    | (.error e, st') => (.error e, st')
    | (.ok _, st') => (.ok logger_name, st')
  else
    (.ok logger_name, st)

end LoggingSetup

/-- Keep-first-occurrence deduplication (the key order of a Python dict
built by repeated insertion); `seen` holds the keys already emitted. -/
def dedupFirstAux (seen : List String) : List String → List String
  | [] => []
  | a :: t => if a ∈ seen then dedupFirstAux seen t
              else a :: dedupFirstAux (a :: seen) t

/-- Keys of a Python dict built by inserting each list element in order. -/
def dedupFirst (l : List String) : List String := dedupFirstAux [] l

/-- Position of the LAST occurrence of `s` in `l` (`none` if absent). -/
def lastIdx : List String → String → Option Nat
  | [], _ => none
  | a :: t, s =>
    match lastIdx t s with
    | some i => some (i + 1)
    | none => if a = s then some 0 else none

/-- The parameter dict `_setup_params` of the market-data fetcher builds
when the environment supplies the key `key`. -/
def avParams (key symbol : String) : Params :=
  [("function", "HISTORICAL_OPTIONS"), ("symbol", symbol),
   ("apikey", key), ("outputsize", "full")]

/-- The parameter dict `_setup_params` of the macro-series fetcher
builds (no optional modifiers) when the environment supplies `key`. -/
def fredParams (key series_id : String) : Params :=
  [("series_id", series_id), ("api_key", key), ("file_type", "json")]

/-- The value `FredAPIFetch.fetch_data` extracts from a transport
outcome whose body is a JSON mapping (the only case in which it does not
raise). -/
def fredExtract : TransportResult → Json
  | .success (.obj kvs) => (dictGet kvs "observations").getD (Json.arr [])
  | _ => Json.null

/-- Number of error-level records in a log. -/
def errorCount (ls : List LogEntry) : Nat :=
  ls.countP (fun l => l.level == LogLevel.error)

/-- Fixture: an environment supplying both API keys. -/
def envBoth : Env := fun k =>
  if k = "API_ALPHA_VANTAGE_KEY" then some "testkey"
  else if k = "API_FREDAPI_KEY" then some "fredkey" else none

/-- Fixture: an environment with no variables set. -/
def envNone : Env := fun _ => none

/-- Fixture: the market-data key is set to the empty string. -/
def envEmptyAV : Env := fun k =>
  if k = "API_ALPHA_VANTAGE_KEY" then some "" else none

/-- Fixture: a stub server always answering with an error-message
payload. -/
def transportErrMsg : Transport := fun _ _ =>
  .success (Json.obj [("Error Message", Json.str "invalid symbol")])

/-- Fixture: the connection always fails. -/
def transportConnFail : Transport := fun _ _ => .connectionError "Network error"

/-- Fixture: the server always answers a non-2xx status. -/
def transportHttp404 : Transport := fun _ _ => .httpError 404

/-- Fixture: the response body is never decodable JSON. -/
def transportBadJson : Transport := fun _ _ => .invalidJson "Invalid JSON"

/-- Fixture: a stub server always answering `{"data": "x"}`. -/
def transportData : Transport := fun _ _ => .success (Json.obj [("data", Json.str "x")])

/-- Fixture: a stub macro-series server whose observations list contains
the literal string "Error Message" as an element. -/
def transportPoison : Transport := fun _ _ =>
  .success (Json.obj [("observations", Json.arr [Json.str "Error Message"])])

/-- Fixture: a stub macro-series server answering one observation. -/
def transportObs : Transport := fun _ _ =>
  .success (Json.obj [("observations",
    Json.arr [Json.obj [("date", Json.str "2020-01-01"), ("value", Json.str "100")]])])

/-- Fixture: a stub server whose answer records the index of the call,
so that distinct calls are distinguishable. -/
def transportIdx : Transport := fun i _ =>
  .success (Json.obj [("call", Json.num i)])

/-! ### Helper lemmas -/

theorem effects_log_requests (eff : Effects) (lv : LogLevel) (m : String) :
    (eff.log lv m).requests = eff.requests := rfl

theorem effects_addLogs_requests (eff : Effects) (ls : List LogEntry) :
    (eff.addLogs ls).requests = eff.requests := rfl

theorem dictGet_dictInsert_self {α : Type} (d : List (String × α)) (k : String) (v : α) :
    dictGet (dictInsert d k v) k = some v := by
  induction d with
  | nil => simp [dictInsert, dictGet]
  | cons kv rest ih =>
    obtain ⟨k', v'⟩ := kv
    by_cases h : k' = k
    · simp [dictInsert, dictGet, h]
    · simp [dictInsert, dictGet, h, ih]

theorem dictGet_dictInsert_ne {α : Type} (d : List (String × α)) (k k' : String) (v : α)
    (h : k' ≠ k) : dictGet (dictInsert d k v) k' = dictGet d k' := by
  induction d with
  | nil => simp [dictInsert, dictGet, Ne.symm h]
  | cons kv rest ih =>
    obtain ⟨k0, v0⟩ := kv
    by_cases h0 : k0 = k
    · subst h0
      simp [dictInsert, dictGet, Ne.symm h]
    · simp only [dictInsert, if_neg h0, dictGet]
      by_cases h1 : k0 = k'
      · simp [h1]
      · simp [h1, ih]

theorem keys_dictInsert {α : Type} (d : List (String × α)) (k : String) (v : α) :
    (dictInsert d k v).map Prod.fst =
      if k ∈ d.map Prod.fst then d.map Prod.fst else d.map Prod.fst ++ [k] := by
  induction d with
  | nil => simp [dictInsert]
  | cons kv rest ih =>
    obtain ⟨k0, v0⟩ := kv
    by_cases h0 : k0 = k
    · subst h0
      simp [dictInsert]
    · simp only [dictInsert, if_neg h0, List.map_cons]
      by_cases h1 : k ∈ rest.map Prod.fst
      · simp [h1, Ne.symm h0, ih]
      · simp [h1, Ne.symm h0, ih]

theorem mem_dedupFirstAux (l : List String) :
    ∀ (seen : List String) (s : String),
      s ∈ dedupFirstAux seen l ↔ s ∈ l ∧ s ∉ seen := by
  induction l with
  | nil => simp [dedupFirstAux]
  | cons a t ih =>
    intro seen s
    by_cases ha : a ∈ seen
    · rw [dedupFirstAux, if_pos ha, ih]
      constructor
      · rintro ⟨hs, hn⟩
        exact ⟨List.mem_cons_of_mem _ hs, hn⟩
      · rintro ⟨hs, hn⟩
        rcases List.mem_cons.mp hs with h | h
        · exact absurd (h ▸ ha) hn
        · exact ⟨h, hn⟩
    · rw [dedupFirstAux, if_neg ha]
      by_cases hsa : s = a
      · subst hsa
        simp [ha]
      · rw [List.mem_cons, ih]
        simp [hsa, List.mem_cons]

theorem nodup_dedupFirstAux (l : List String) :
    ∀ seen : List String, (dedupFirstAux seen l).Nodup := by
  induction l with
  | nil => intro seen; simp [dedupFirstAux]
  | cons a t ih =>
    intro seen
    by_cases ha : a ∈ seen
    · rw [dedupFirstAux, if_pos ha]; exact ih seen
    · rw [dedupFirstAux, if_neg ha]
      refine List.nodup_cons.mpr ⟨?_, ih _⟩
      intro hmem
      exact ((mem_dedupFirstAux t _ a).mp hmem).2 (List.mem_cons_self a seen)

theorem dedupFirstAux_congr (l : List String) :
    ∀ seen1 seen2 : List String, (∀ s, s ∈ seen1 ↔ s ∈ seen2) →
      dedupFirstAux seen1 l = dedupFirstAux seen2 l := by
  induction l with
  | nil => intro _ _ _; rfl
  | cons a t ih =>
    intro seen1 seen2 h
    by_cases ha : a ∈ seen1
    · rw [dedupFirstAux, if_pos ha, dedupFirstAux, if_pos ((h a).mp ha)]
      exact ih _ _ h
    · rw [dedupFirstAux, if_neg ha, dedupFirstAux, if_neg (fun hc => ha ((h a).mpr hc))]
      refine congrArg _ (ih _ _ ?_)
      intro s
      simp only [List.mem_cons]
      exact or_congr Iff.rfl (h s)

theorem dedupFirstAux_of_nodup (l : List String) :
    ∀ seen : List String, l.Nodup → (∀ s ∈ l, s ∉ seen) →
      dedupFirstAux seen l = l := by
  induction l with
  | nil => intro _ _ _; rfl
  | cons a t ih =>
    intro seen hnd hdisj
    rw [dedupFirstAux, if_neg (hdisj a (List.mem_cons_self a t))]
    refine congrArg _ (ih _ (List.nodup_cons.mp hnd).2 ?_)
    intro s hs
    rw [List.mem_cons]
    rintro (h | h)
    · exact (List.nodup_cons.mp hnd).1 (h ▸ hs)
    · exact hdisj s (List.mem_cons_of_mem _ hs) h

theorem lastIdx_eq_none_iff (l : List String) (s : String) :
    lastIdx l s = none ↔ s ∉ l := by
  induction l with
  | nil => simp [lastIdx]
  | cons a t ih =>
    cases h : lastIdx t s with
    | none =>
      have hst : s ∉ t := ih.mp h
      by_cases ha : a = s
      · simp [lastIdx, h, ha]
      · simp only [lastIdx, h, if_neg ha, List.mem_cons]
        constructor
        · rintro _ (hc | hc)
          · exact ha hc.symm
          · exact hst hc
        · intro _; trivial
    | some i =>
      simp only [lastIdx, h, List.mem_cons]
      constructor
      · intro hc; simp at hc
      · intro hc
        exfalso
        apply hc
        right
        by_contra hn
        rw [ih.mpr hn] at h
        exact Option.noConfusion h

theorem dictGet_isSome_of_pyContains (kvs : List (String × Json)) (key : String)
    (h : pyContains key (Json.obj kvs) = .ok true) : ∃ v, dictGet kvs key = some v := by
  have hB : pyContainsB key (Json.obj kvs) = true := by
    simpa [pyContains] using h
  clear h
  induction kvs with
  | nil => simp [pyContainsB] at hB
  | cons kv rest ih =>
    obtain ⟨k0, v0⟩ := kv
    by_cases h0 : k0 = key
    · exact ⟨v0, by simp [dictGet, h0]⟩
    · simp only [pyContainsB, List.any_cons, Bool.or_eq_true, decide_eq_true_eq] at hB
      rcases hB with h | h
      · exact absurd h h0
      · obtain ⟨v, hv⟩ := ih (by simp [pyContainsB, h])
        exact ⟨v, by simp [dictGet, h0, hv]⟩

theorem validate_response_safe (d : Json) (s : String) (h : validateSafe d = true) :
    ∃ r logs, APIUtils.validate_response d s = (.ok r, logs) := by
  cases d with
  | null => exact ⟨Json.null, _, rfl⟩
  | num n => simp [validateSafe] at h
  | obj kvs =>
    cases hb1 : pyContainsB "Error Message" (Json.obj kvs) with
    | true =>
      obtain ⟨v, hv⟩ :=
        dictGet_isSome_of_pyContains kvs "Error Message" (by simp [pyContains, hb1])
      refine ⟨Json.null, [⟨.error, "Error fetching data for " ++ s ++ ": " ++ v.render⟩], ?_⟩
      simp [APIUtils.validate_response, pyContains, hb1, pyIndex, hv]
    | false =>
      cases hb2 : pyContainsB "Note" (Json.obj kvs) with
      | true =>
        obtain ⟨v, hv⟩ :=
          dictGet_isSome_of_pyContains kvs "Note" (by simp [pyContains, hb2])
        refine ⟨Json.null, [⟨.warning, "Rate limit hit for " ++ s ++ ": " ++ v.render⟩], ?_⟩
        simp [APIUtils.validate_response, pyContains, hb1, hb2, pyIndex, hv]
      | false =>
        refine ⟨Json.obj kvs, [], ?_⟩
        simp [APIUtils.validate_response, pyContains, hb1, hb2]
  | str s0 =>
    simp only [validateSafe, Bool.not_eq_true', Bool.or_eq_false_iff] at h
    exact ⟨Json.str s0, [], by simp [APIUtils.validate_response, pyContains, h.1, h.2]⟩
  | arr xs =>
    simp only [validateSafe, Bool.not_eq_true', Bool.or_eq_false_iff] at h
    exact ⟨Json.arr xs, [], by simp [APIUtils.validate_response, pyContains, h.1, h.2]⟩

theorem api_fetch_spec (transport : Transport) (url : String) (p : Params) (eff : Effects) :
    (APIUtils.fetch_data transport url p eff).1 = (transport eff.requests.length p).toData ∧
    (APIUtils.fetch_data transport url p eff).2.requests = eff.requests ++ [p] := by
  unfold APIUtils.fetch_data
  cases h : transport eff.requests.length p <;>
    simp [h, TransportResult.toData, Effects.log, Effects.request]

theorem av_setup_params_ok (env : Env) (k symbol : String)
    (hk : env "API_ALPHA_VANTAGE_KEY" = some k) :
    AlphaVantage.setup_params env symbol = (.ok (avParams k symbol), []) := by
  simp [AlphaVantage.setup_params, APIUtils.get_api_key, hk, avParams]

theorem av_fetch_data_ok (env : Env) (transport : Transport) (k s : String) (eff : Effects)
    (hk : env "API_ALPHA_VANTAGE_KEY" = some k)
    (hsafe : validateSafe (transport eff.requests.length (avParams k s)).toData = true) :
    (AlphaVantage.fetch_data env transport s eff).1 =
      .ok (transport eff.requests.length (avParams k s)).toData ∧
    (AlphaVantage.fetch_data env transport s eff).2.requests = eff.requests ++ [avParams k s] := by
  obtain ⟨hd, hr⟩ :=
    api_fetch_spec transport AlphaVantage.BASE_URL (avParams k s) (eff.addLogs [])
  obtain ⟨r, logs, hv⟩ :=
    validate_response_safe (transport eff.requests.length (avParams k s)).toData s hsafe
  unfold AlphaVantage.fetch_data
  simp only [av_setup_params_ok env k s hk]
  rcases hfd : APIUtils.fetch_data transport AlphaVantage.BASE_URL (avParams k s)
      (eff.addLogs []) with ⟨data, eff1⟩
  rw [hfd] at hd hr
  simp only [Effects.addLogs, List.append_nil] at hd hr
  simp only [hfd, Effects.addLogs, List.append_nil]
  rw [hd]
  simp only [hv]
  constructor <;> simp [Effects.addLogs, hr]

theorem fred_setup_params_ok (env : Env) (k series_id : String)
    (hk : env "API_FREDAPI_KEY" = some k) :
    Fred.setup_params env series_id none none none = (.ok (fredParams k series_id), []) := by
  simp [Fred.setup_params, APIUtils.get_api_key, hk, fredParams, pyTruthy]

theorem fred_fetch_data_ok (env : Env) (transport : Transport) (k s : String)
    (eff : Effects) (kvs : List (String × Json))
    (ht : transport eff.requests.length (fredParams k s) = .success (Json.obj kvs))
    (hk : env "API_FREDAPI_KEY" = some k)
    (hsafe : validateSafe ((dictGet kvs "observations").getD (Json.arr [])) = true) :
    (Fred.fetch_data env transport s eff).1 =
      .ok ((dictGet kvs "observations").getD (Json.arr [])) ∧
    (Fred.fetch_data env transport s eff).2.requests = eff.requests ++ [fredParams k s] := by
  obtain ⟨hd, hr⟩ := api_fetch_spec transport Fred.BASE_URL (fredParams k s) (eff.addLogs [])
  obtain ⟨r, logs, hv⟩ :=
    validate_response_safe ((dictGet kvs "observations").getD (Json.arr [])) s hsafe
  unfold Fred.fetch_data
  simp only [fred_setup_params_ok env k s hk]
  rcases hfd : APIUtils.fetch_data transport Fred.BASE_URL (fredParams k s)
      (eff.addLogs []) with ⟨data, eff1⟩
  rw [hfd] at hd hr
  simp only [Effects.addLogs, List.append_nil] at hd hr
  rw [ht] at hd
  simp only [TransportResult.toData] at hd
  simp only [hfd, Effects.addLogs, List.append_nil]
  rw [hd]
  simp only [hv]
  constructor <;> simp [Effects.addLogs, hr]

theorem batch_loop_spec (lp : String)
    (fetchOne : String → Effects → Except PyErr Json × Effects)
    (val : String → Nat → Json) (prm : String → Params)
    (hf : ∀ s eff, (fetchOne s eff).1 = Except.ok (val s eff.requests.length) ∧
          (fetchOne s eff).2.requests = eff.requests ++ [prm s]) :
    ∀ (symbols : List String) (acc : List (String × Json)) (eff : Effects),
      ∃ m eff2, batch_loop lp fetchOne symbols acc eff = (.ok m, eff2) ∧
        m.map Prod.fst = acc.map Prod.fst ++ dedupFirstAux (acc.map Prod.fst) symbols ∧
        eff2.requests = eff.requests ++ symbols.map prm ∧
        (∀ s, s ∉ symbols → dictGet m s = dictGet acc s) ∧
        (∀ s i, lastIdx symbols s = some i →
          dictGet m s = some (val s (eff.requests.length + i))) := by
  intro symbols
  induction symbols with
  | nil =>
    intro acc eff
    refine ⟨acc, eff, rfl, by simp [dedupFirstAux], by simp, fun s _ => rfl, ?_⟩
    intro s i h
    simp [lastIdx] at h
  | cons a rest ih =>
    intro acc eff
    obtain ⟨hr1, hr2⟩ := hf a (eff.log .info (lp ++ a))
    rcases hfe : fetchOne a (eff.log .info (lp ++ a)) with ⟨r, eff1⟩
    rw [hfe] at hr1 hr2
    dsimp only [Effects.log] at hr1 hr2
    subst hr1
    obtain ⟨m, eff2, hbl, hkeys, hreq2, hlook, hlast⟩ :=
      ih (dictInsert acc a (val a eff.requests.length)) eff1
    refine ⟨m, eff2, ?_, ?_, ?_, ?_, ?_⟩
    · simp only [batch_loop]
      rw [hfe]
      exact hbl
    · rw [hkeys, keys_dictInsert]
      by_cases hmem : a ∈ acc.map Prod.fst
      · rw [if_pos hmem, dedupFirstAux, if_pos hmem]
      · rw [if_neg hmem, dedupFirstAux, if_neg hmem,
            dedupFirstAux_congr rest (acc.map Prod.fst ++ [a]) (a :: acc.map Prod.fst)
              (by intro s; simp [or_comm])]
        simp
    · rw [hreq2, hr2]
      simp
    · intro s hs
      have hsa : s ≠ a := fun hc => hs (hc ▸ List.mem_cons_self a rest)
      have hsr : s ∉ rest := fun hc => hs (List.mem_cons_of_mem _ hc)
      rw [hlook s hsr, dictGet_dictInsert_ne _ _ _ _ hsa]
    · intro s i h
      rw [lastIdx] at h
      cases hlt : lastIdx rest s with
      | some j =>
        simp only [hlt] at h
        injection h with h
        subst h
        have hv := hlast s j hlt
        have hlen : eff1.requests.length = eff.requests.length + 1 := by
          rw [hr2]; simp
        rw [hlen] at hv
        have harith : eff.requests.length + 1 + j = eff.requests.length + (j + 1) := by omega
        rw [harith] at hv
        exact hv
      | none =>
        simp only [hlt] at h
        by_cases ha : a = s
        · rw [if_pos ha] at h
          injection h with h
          subst h
          subst ha
          rw [Nat.add_zero, hlook a ((lastIdx_eq_none_iff rest a).mp hlt),
              dictGet_dictInsert_self]
        · rw [if_neg ha] at h
          exact Option.noConfusion h

theorem download_types_loop_downloads (dlGet : String → String → Nat → Option PyErr)
    (ticker : String) :
    ∀ (fts : List (String × String)) (limit : Nat) (eff : Effects),
      (SecEdgar.download_types_loop dlGet ticker fts limit eff).downloads =
        eff.downloads ++ fts.map (fun ft => (ft.2, ticker)) := by
  intro fts
  induction fts with
  | nil => intro limit eff; simp [SecEdgar.download_types_loop]
  | cons ft rest ih =>
    intro limit eff
    obtain ⟨d, f⟩ := ft
    simp only [SecEdgar.download_types_loop]
    cases hdl : dlGet f ticker limit <;>
      simp [hdl, ih, Effects.log, Effects.download]

theorem download_tickers_loop_downloads (dlGet : String → String → Nat → Option PyErr) :
    ∀ (ts : List String) (fts : List (String × String)) (limit : Nat) (eff : Effects),
      (SecEdgar.download_tickers_loop dlGet ts fts limit eff).downloads =
        eff.downloads ++ ts.flatMap (fun t => fts.map (fun ft => (ft.2, t))) := by
  intro ts
  induction ts with
  | nil => intro fts limit eff; simp [SecEdgar.download_tickers_loop]
  | cons t rest ih =>
    intro fts limit eff
    simp only [SecEdgar.download_tickers_loop]
    rw [ih, download_types_loop_downloads]
    simp [Effects.log]

theorem download_types_loop_logs_mono (dlGet : String → String → Nat → Option PyErr)
    (ticker : String) :
    ∀ (fts : List (String × String)) (limit : Nat) (eff : Effects) (e : LogEntry),
      e ∈ eff.logs → e ∈ (SecEdgar.download_types_loop dlGet ticker fts limit eff).logs := by
  intro fts
  induction fts with
  | nil => intro limit eff e he; simpa [SecEdgar.download_types_loop] using he
  | cons ft rest ih =>
    intro limit eff e he
    obtain ⟨d, f⟩ := ft
    simp only [SecEdgar.download_types_loop]
    cases hdl : dlGet f ticker limit <;>
      exact ih _ _ _ (by simp [hdl, Effects.log, Effects.download, he])

theorem download_tickers_loop_logs_mono (dlGet : String → String → Nat → Option PyErr) :
    ∀ (ts : List String) (fts : List (String × String)) (limit : Nat) (eff : Effects)
      (e : LogEntry),
      e ∈ eff.logs → e ∈ (SecEdgar.download_tickers_loop dlGet ts fts limit eff).logs := by
  intro ts
  induction ts with
  | nil => intro fts limit eff e he; simpa [SecEdgar.download_tickers_loop] using he
  | cons t rest ih =>
    intro fts limit eff e he
    simp only [SecEdgar.download_tickers_loop]
    exact ih _ _ _ _ (download_types_loop_logs_mono dlGet t _ _ _ _ (by simp [Effects.log, he]))

theorem download_types_loop_logs_err (dlGet : String → String → Nat → Option PyErr)
    (ticker : String) :
    ∀ (fts : List (String × String)) (limit : Nat) (eff : Effects) (d f : String),
      (d, f) ∈ fts → dlGet f ticker limit ≠ none →
      (⟨.error, "Error downloading " ++ d ++ " filings for " ++ ticker⟩ : LogEntry) ∈
        (SecEdgar.download_types_loop dlGet ticker fts limit eff).logs := by
  intro fts
  induction fts with
  | nil => intro limit eff d f hm _; simp at hm
  | cons ft rest ih =>
    intro limit eff d f hm herr
    obtain ⟨d0, f0⟩ := ft
    rcases List.mem_cons.mp hm with hm | hm
    · injection hm with hd hf
      subst hd; subst hf
      simp only [SecEdgar.download_types_loop]
      cases hdl : dlGet f ticker limit with
      | none => exact absurd hdl herr
      | some e =>
        exact download_types_loop_logs_mono dlGet ticker _ _ _ _
          (by simp [Effects.log, Effects.download])
    · simp only [SecEdgar.download_types_loop]
      cases hdl : dlGet f0 ticker limit <;> exact ih _ _ _ _ hm herr

theorem download_tickers_loop_logs_err (dlGet : String → String → Nat → Option PyErr) :
    ∀ (ts : List String) (fts : List (String × String)) (limit : Nat) (eff : Effects)
      (t d f : String),
      t ∈ ts → (d, f) ∈ fts → dlGet f t limit ≠ none →
      (⟨.error, "Error downloading " ++ d ++ " filings for " ++ t⟩ : LogEntry) ∈
        (SecEdgar.download_tickers_loop dlGet ts fts limit eff).logs := by
  intro ts
  induction ts with
  | nil => intro fts limit eff t d f hm _ _; simp at hm
  | cons t0 rest ih =>
    intro fts limit eff t d f hm hft herr
    rcases List.mem_cons.mp hm with hm | hm
    · subst hm
      simp only [SecEdgar.download_tickers_loop]
      exact download_tickers_loop_logs_mono dlGet _ _ _ _ _
        (download_types_loop_logs_err dlGet t _ _ _ _ _ hft herr)
    · simp only [SecEdgar.download_tickers_loop]
      exact ih _ _ _ _ _ _ hm hft herr

/-! ### Claim theorems -/

/-- C1: the spec claims that for a payload containing the sentinel key
"Error Message", `AlphaVantageAPIFetcher.fetch_data` returns the absence
marker `None` and emits one error-level log line.  The code does emit
exactly one error-level line, but it DISCARDS the result of
`_validate_response` and returns the raw payload, contradicting its own
docstring ("otherwise, None").  This theorem evaluates the code at the
claimed scenario: `fetchOne("BAD")` against a stub returning
`{"Error Message": "invalid symbol"}` yields the payload itself, which
is not `None`. -/
theorem C1_error_payload_returned :
    (AlphaVantage.fetch_data envBoth transportErrMsg "BAD" Effects.empty).1 =
      .ok (Json.obj [("Error Message", Json.str "invalid symbol")]) ∧
    Json.obj [("Error Message", Json.str "invalid symbol")] ≠ Json.null ∧
    errorCount (AlphaVantage.fetch_data envBoth transportErrMsg "BAD" Effects.empty).2.logs = 1 :=
  ⟨rfl, fun h => Json.noConfusion h, rfl⟩

/-- C2: for every payload mapping containing the sentinel key
"Error Message", `_validate_response` returns `None` and emits exactly
one log record, at error level, regardless of any other keys present —
in particular a mapping also containing "Note" is classified as an
error, since the error check comes first. -/
theorem C2_validate_error_sentinel (kvs : List (String × Json)) (symbol : String)
    (h : pyContains "Error Message" (Json.obj kvs) = .ok true) :
    (APIUtils.validate_response (Json.obj kvs) symbol).1 = .ok Json.null ∧
    ∃ m, (APIUtils.validate_response (Json.obj kvs) symbol).2 = [⟨.error, m⟩] := by
  obtain ⟨v, hv⟩ := dictGet_isSome_of_pyContains kvs _ h
  refine ⟨?_, ⟨"Error fetching data for " ++ symbol ++ ": " ++ v.render, ?_⟩⟩ <;>
    simp [APIUtils.validate_response, h, pyIndex, hv]

/-- Witness for C2 at a payload carrying both sentinel keys. -/
theorem C2_witness :
    pyContains "Error Message"
      (Json.obj [("Error Message", Json.str "bad"), ("Note", Json.str "limit")]) = .ok true ∧
    ((APIUtils.validate_response
        (Json.obj [("Error Message", Json.str "bad"), ("Note", Json.str "limit")]) "AAPL").1 =
      .ok Json.null ∧
     ∃ m, (APIUtils.validate_response
        (Json.obj [("Error Message", Json.str "bad"), ("Note", Json.str "limit")]) "AAPL").2 =
      [⟨.error, m⟩]) :=
  ⟨rfl, C2_validate_error_sentinel _ "AAPL" rfl⟩

/-- C3: for every payload mapping containing neither sentinel key,
`_validate_response` returns the payload unchanged and emits no log
record at all; being a Lean function of exactly the payload and the
identifier, its result depends on nothing else and it has no effect
channel besides the returned log list. -/
theorem C3_validate_identity (kvs : List (String × Json)) (symbol : String)
    (h1 : pyContains "Error Message" (Json.obj kvs) = .ok false)
    (h2 : pyContains "Note" (Json.obj kvs) = .ok false) :
    APIUtils.validate_response (Json.obj kvs) symbol = (.ok (Json.obj kvs), []) := by
  simp [APIUtils.validate_response, h1, h2]

/-- Witness for C3 at a sentinel-free payload. -/
theorem C3_witness :
    pyContains "Error Message" (Json.obj [("data", Json.str "x")]) = .ok false ∧
    pyContains "Note" (Json.obj [("data", Json.str "x")]) = .ok false ∧
    APIUtils.validate_response (Json.obj [("data", Json.str "x")]) "AAPL" =
      (.ok (Json.obj [("data", Json.str "x")]), []) :=
  ⟨rfl, rfl, C3_validate_identity [("data", Json.str "x")] "AAPL" rfl rfl⟩

/-- C5: the spec claims every transport failure makes `fetchOne` of each
source return its absence marker without raising.  That holds for the
market-data source (it returns `None` and logs at error level), but the
macro-series `fetch_data` calls `.get("observations", [])` on the `None`
returned by `_fetch_data`, raising `AttributeError` — for all three
failure kinds (connection error, non-2xx status, malformed JSON). -/
theorem C5_transport_failure_eval :
    (Fred.fetch_data envBoth transportConnFail "GDP" Effects.empty).1 =
      .error (.attributeError "NoneType object has no attribute get") ∧
    (Fred.fetch_data envBoth transportHttp404 "GDP" Effects.empty).1 =
      .error (.attributeError "NoneType object has no attribute get") ∧
    (Fred.fetch_data envBoth transportBadJson "GDP" Effects.empty).1 =
      .error (.attributeError "NoneType object has no attribute get") ∧
    (AlphaVantage.fetch_data envBoth transportConnFail "AAPL" Effects.empty).1 = .ok Json.null ∧
    (AlphaVantage.fetch_data envBoth transportHttp404 "AAPL" Effects.empty).1 = .ok Json.null ∧
    (AlphaVantage.fetch_data envBoth transportBadJson "AAPL" Effects.empty).1 = .ok Json.null ∧
    errorCount (AlphaVantage.fetch_data envBoth transportConnFail "AAPL" Effects.empty).2.logs = 2 :=
  ⟨rfl, rfl, rfl, rfl, rfl, rfl, rfl⟩

/-- C6 counterexample: the claim says a present-but-EMPTY key variable
makes the parameter builder raise `MissingCredential`.  The code only
checks `os.getenv(...) is None`, so with the variable set to the empty
string the builder succeeds (with an empty `apikey` field) and the fetch
performs its network call. -/
theorem C6_counterexample :
    (AlphaVantage.setup_params envEmptyAV "AAPL").1 =
      .ok [("function", "HISTORICAL_OPTIONS"), ("symbol", "AAPL"),
           ("apikey", ""), ("outputsize", "full")] ∧
    (AlphaVantage.fetch_data envEmptyAV transportData "AAPL" Effects.empty).2.requests.length = 1 :=
  ⟨rfl, rfl⟩

/-- C6 amended: when the key environment variable is ABSENT (`os.getenv`
returns `None`), the parameter builder raises `ValueError` ("API Key
missing."), the error propagates unmodified through both `fetch_data`
and the batch fetchers, and no network request is issued; an
empty-string value is accepted as a credential. -/
theorem C6_missing_key_raises (env : Env) (transport : Transport)
    (symbol series : String) (eff : Effects) (rest : List String)
    (hAV : env "API_ALPHA_VANTAGE_KEY" = none)
    (hFred : env "API_FREDAPI_KEY" = none) :
    (AlphaVantage.fetch_data env transport symbol eff).1 =
      .error (.valueError "API Key missing.") ∧
    (AlphaVantage.fetch_data env transport symbol eff).2.requests = eff.requests ∧
    (AlphaVantage.fetch_batch_data env transport (symbol :: rest) eff).1 =
      .error (.valueError "API Key missing.") ∧
    (AlphaVantage.fetch_batch_data env transport (symbol :: rest) eff).2.requests = eff.requests ∧
    (Fred.fetch_data env transport series eff).1 =
      .error (.valueError "API Key missing.") ∧
    (Fred.fetch_data env transport series eff).2.requests = eff.requests ∧
    (Fred.fetch_batch_series env transport (series :: rest) eff).1 =
      .error (.valueError "API Key missing.") ∧
    (Fred.fetch_batch_series env transport (series :: rest) eff).2.requests = eff.requests := by
  refine ⟨?_, ?_, ?_, ?_, ?_, ?_, ?_, ?_⟩ <;>
    simp [AlphaVantage.fetch_data, AlphaVantage.fetch_batch_data, batch_loop,
          AlphaVantage.setup_params, APIUtils.get_api_key, hAV, hFred,
          Fred.fetch_data, Fred.fetch_batch_series, Fred.setup_params,
          Effects.addLogs, Effects.log]

/-- Witness for C6 at the empty environment. -/
theorem C6_witness :
    envNone "API_ALPHA_VANTAGE_KEY" = none ∧
    (AlphaVantage.fetch_data envNone transportData "AAPL" Effects.empty).1 =
      .error (.valueError "API Key missing.") ∧
    (AlphaVantage.fetch_data envNone transportData "AAPL" Effects.empty).2.requests =
      Effects.empty.requests ∧
    (AlphaVantage.fetch_batch_data envNone transportData ("AAPL" :: []) Effects.empty).1 =
      .error (.valueError "API Key missing.") ∧
    (AlphaVantage.fetch_batch_data envNone transportData ("AAPL" :: []) Effects.empty).2.requests =
      Effects.empty.requests ∧
    (Fred.fetch_data envNone transportData "GDP" Effects.empty).1 =
      .error (.valueError "API Key missing.") ∧
    (Fred.fetch_data envNone transportData "GDP" Effects.empty).2.requests =
      Effects.empty.requests ∧
    (Fred.fetch_batch_series envNone transportData ("GDP" :: []) Effects.empty).1 =
      .error (.valueError "API Key missing.") ∧
    (Fred.fetch_batch_series envNone transportData ("GDP" :: []) Effects.empty).2.requests =
      Effects.empty.requests :=
  ⟨rfl, C6_missing_key_raises envNone transportData "AAPL" "GDP" Effects.empty [] rfl rfl⟩

/-- C7 counterexample: the claim says that whenever the decoded payload
is a mapping binding "observations" to a list, `fetch_data` returns that
inner list unchanged.  But the (discarded) `_validate_response` call
evaluates `data["Error Message"]` whenever `"Error Message" in data`,
and on a LIST that membership test compares elements — so an
observations list containing the literal string "Error Message" makes
the f-string indexing raise `TypeError`, which propagates out of
`fetch_data` instead of the list being returned. -/
theorem C7_counterexample :
    (Fred.fetch_data envBoth transportPoison "GDP" Effects.empty).1 =
      .error (.typeError "list indices must be integers or slices, not str") ∧
    (Fred.fetch_data envBoth transportPoison "GDP" Effects.empty).1 ≠
      .ok (Json.arr [Json.str "Error Message"]) := by
  have h : (Fred.fetch_data envBoth transportPoison "GDP" Effects.empty).1 =
      .error (.typeError "list indices must be integers or slices, not str") := rfl
  refine ⟨h, ?_⟩
  rw [h]
  intro hc
  exact Except.noConfusion hc

/-- C7 amended: when the macro-series payload is a mapping binding
"observations" to a list whose elements are not the literal sentinel
strings (`validateSafe`), `fetch_data` returns that inner list
unchanged; when the mapping lacks the key, it returns the empty list. -/
theorem C7_observations_unwrap (env : Env) (transport : Transport) (series k : String)
    (kvs : List (String × Json)) (eff : Effects)
    (hk : env "API_FREDAPI_KEY" = some k)
    (ht : ∀ i p, transport i p = .success (Json.obj kvs)) :
    (∀ obs : List Json, dictGet kvs "observations" = some (Json.arr obs) →
      validateSafe (Json.arr obs) = true →
      (Fred.fetch_data env transport series eff).1 = .ok (Json.arr obs)) ∧
    (dictGet kvs "observations" = none →
      (Fred.fetch_data env transport series eff).1 = .ok (Json.arr [])) := by
  constructor
  · intro obs hobs hsafe
    have h := fred_fetch_data_ok env transport k series eff kvs
      (ht eff.requests.length (fredParams k series)) hk (by rw [hobs]; exact hsafe)
    rw [h.1, hobs]
    rfl
  · intro hobs
    have h := fred_fetch_data_ok env transport k series eff kvs
      (ht eff.requests.length (fredParams k series)) hk (by rw [hobs]; rfl)
    rw [h.1, hobs]
    rfl

/-- Witness for C7: one observation row is returned unchanged, and an
empty mapping yields the empty list. -/
theorem C7_witness :
    envBoth "API_FREDAPI_KEY" = some "fredkey" ∧
    (Fred.fetch_data envBoth transportObs "GDP" Effects.empty).1 =
      .ok (Json.arr [Json.obj [("date", Json.str "2020-01-01"), ("value", Json.str "100")]]) ∧
    (Fred.fetch_data envBoth (fun _ _ => .success (Json.obj [])) "GDP" Effects.empty).1 =
      .ok (Json.arr []) :=
  ⟨rfl,
   (C7_observations_unwrap envBoth transportObs "GDP" "fredkey"
      [("observations",
        Json.arr [Json.obj [("date", Json.str "2020-01-01"), ("value", Json.str "100")]])]
      Effects.empty rfl (fun _ _ => rfl)).1
     [Json.obj [("date", Json.str "2020-01-01"), ("value", Json.str "100")]] rfl (by decide),
   (C7_observations_unwrap envBoth (fun _ _ => .success (Json.obj [])) "GDP" "fredkey"
      [] Effects.empty rfl (fun _ _ => rfl)).2 rfl⟩

/-- C9 counterexample: the claim says that when the configuration path
is not provided, setup falls back to a basic warning-level
configuration.  In the code, `_setup_logging` with no argument and no
`LOGGING_CONFIG_PATH` raises `ValueError` instead, applying no
configuration at all. -/
theorem C9_counterexample :
    LoggingSetup.setup_logging (fun _ => .valid) none none ⟨false, [], []⟩ =
      (.error (.valueError "Logging configuration path is not set. Ensure the LOGGING_CONFIG_PATH environment variable is defined."),
       ⟨false, [], []⟩) := rfl

/-- C9 amended: configuration is applied at most once per process — an
already-configured state is never touched again, by `_setup_logging` or
by `get_logger`; whenever a (truthy) configuration path IS available and
the file is missing or invalid, setup succeeds by falling back to the
basic warning-level configuration; but when no path is available, setup
raises `ValueError` instead of falling back. -/
theorem C9_logging_setup :
    (∀ (fs : String → LoggingSetup.ConfigFile) (dp cp : Option String)
       (st : LoggingSetup.LogState), st.is_configured = true →
       LoggingSetup.setup_logging fs dp cp st = (.ok (), st)) ∧
    (∀ (fs : String → LoggingSetup.ConfigFile) (dp : Option String) (name : String)
       (st : LoggingSetup.LogState), st.is_configured = true →
       LoggingSetup.get_logger fs dp name st = (.ok name, st)) ∧
    (∀ (fs : String → LoggingSetup.ConfigFile) (dp cp : Option String)
       (st : LoggingSetup.LogState), st.is_configured = false →
       pyTruthy (if pyTruthy cp then cp else dp) = true →
       fs ((if pyTruthy cp then cp else dp).getD "") ≠ .valid →
       (LoggingSetup.setup_logging fs dp cp st).1 = .ok () ∧
       (LoggingSetup.setup_logging fs dp cp st).2.is_configured = true ∧
       (LoggingSetup.setup_logging fs dp cp st).2.applied =
         st.applied ++ [.basicWarning]) ∧
    (∀ (fs : String → LoggingSetup.ConfigFile) (dp cp : Option String)
       (st : LoggingSetup.LogState), st.is_configured = false →
       pyTruthy (if pyTruthy cp then cp else dp) = false →
       LoggingSetup.setup_logging fs dp cp st =
         (.error (.valueError "Logging configuration path is not set. Ensure the LOGGING_CONFIG_PATH environment variable is defined."), st)) := by
  refine ⟨?_, ?_, ?_, ?_⟩
  · intro fs dp cp st h
    simp [LoggingSetup.setup_logging, h]
  · intro fs dp name st h
    simp [LoggingSetup.get_logger, h]
  · intro fs dp cp st h1 h2 h3
    cases hfs : fs ((if pyTruthy cp then cp else dp).getD "") <;>
      simp [LoggingSetup.setup_logging, h1, h2, hfs] at h3 ⊢
  · intro fs dp cp st h1 h2
    simp [LoggingSetup.setup_logging, h1, h2]

/-- Witness for C9: an already-configured state is untouched, a missing
file falls back to the basic configuration, and the no-path case
raises. -/
theorem C9_witness :
    (LoggingSetup.LogState.mk true [.basicWarning] []).is_configured = true ∧
    LoggingSetup.get_logger (fun _ => .valid) (some "cfg.yaml") "data_pipeline_bronze"
      ⟨true, [.basicWarning], []⟩ = (.ok "data_pipeline_bronze", ⟨true, [.basicWarning], []⟩) ∧
    (LoggingSetup.setup_logging (fun _ => .absent) (some "cfg.yaml") none ⟨false, [], []⟩).1 =
      .ok () ∧
    (LoggingSetup.setup_logging (fun _ => .absent) (some "cfg.yaml") none ⟨false, [], []⟩).2.applied =
      [] ++ [.basicWarning] ∧
    LoggingSetup.setup_logging (fun _ => .invalidYaml) none none ⟨false, [], []⟩ =
      (.error (.valueError "Logging configuration path is not set. Ensure the LOGGING_CONFIG_PATH environment variable is defined."), ⟨false, [], []⟩) :=
  ⟨rfl,
   (C9_logging_setup.2.1 (fun _ => .valid) (some "cfg.yaml") "data_pipeline_bronze"
      ⟨true, [.basicWarning], []⟩ rfl),
   ((C9_logging_setup.2.2.1 (fun _ => .absent) (some "cfg.yaml") none ⟨false, [], []⟩
      rfl rfl (by intro h; exact LoggingSetup.ConfigFile.noConfusion h))).1,
   ((C9_logging_setup.2.2.1 (fun _ => .absent) (some "cfg.yaml") none ⟨false, [], []⟩
      rfl rfl (by intro h; exact LoggingSetup.ConfigFile.noConfusion h))).2.2,
   (C9_logging_setup.2.2.2 (fun _ => .invalidYaml) none none ⟨false, [], []⟩ rfl rfl)⟩

theorem dedupFirstAux_length_card (l : List String) :
    (dedupFirstAux [] l).length = l.toFinset.card := by
  have hnd := nodup_dedupFirstAux l []
  have hts : (dedupFirstAux [] l).toFinset = l.toFinset := by
    ext s
    simp [List.mem_toFinset, mem_dedupFirstAux]
  rw [← hts, List.card_toFinset, hnd.dedup]

/-- C4 counterexample: the claim promises exactly N result entries for
EVERY list of N identifiers, but Python dict insertion collapses
duplicates: a batch over `["AAPL", "AAPL"]` yields one entry, not
two. -/
theorem C4_counterexample :
    (AlphaVantage.fetch_batch_data envBoth transportData ["AAPL", "AAPL"] Effects.empty).1 =
      .ok [("AAPL", Json.obj [("data", Json.str "x")])] ∧
    ([("AAPL", Json.obj [("data", Json.str "x")])] : List (String × Json)).length ≠
      ["AAPL", "AAPL"].length :=
  ⟨rfl, by decide⟩

/-- C4 amended: for every list of N pairwise-distinct identifiers (and
well-formed responses, i.e. every decoded body one on which the
discarded validation step does not raise — in particular any JSON
mapping or any transport failure), the market-data batch returns a
mapping with exactly N entries, one per identifier in input insertion
order, no matter which items fail; the macro-series batch does the same
only under the extra assumption that every per-item transport succeeds
with a mapping body, because a transport failure raises
`AttributeError` and aborts it (the code bug recorded at C5). -/
theorem C4_batch_complete (env : Env) (transport : Transport) (kAV kF : String)
    (symbols : List String) (eff : Effects)
    (hAV : env "API_ALPHA_VANTAGE_KEY" = some kAV)
    (hF : env "API_FREDAPI_KEY" = some kF)
    (hnd : symbols.Nodup)
    (hsafe : ∀ i p, validateSafe (transport i p).toData = true) :
    (∃ m eff2, AlphaVantage.fetch_batch_data env transport symbols eff = (.ok m, eff2) ∧
       m.map Prod.fst = symbols) ∧
    ((∀ i p, ∃ kvs, transport i p = TransportResult.success (Json.obj kvs) ∧
        validateSafe ((dictGet kvs "observations").getD (Json.arr [])) = true) →
     ∃ m eff2, Fred.fetch_batch_series env transport symbols eff = (.ok m, eff2) ∧
       m.map Prod.fst = symbols) := by
  constructor
  · obtain ⟨m, eff2, hbl, hkeys, -, -, -⟩ :=
      batch_loop_spec "Fetching data for symbol: " (AlphaVantage.fetch_data env transport)
        (fun s i => (transport i (avParams kAV s)).toData) (avParams kAV)
        (fun s e => av_fetch_data_ok env transport kAV s e hAV (hsafe _ _)) symbols [] eff
    refine ⟨m, eff2, hbl, ?_⟩
    rw [hkeys]
    simpa using dedupFirstAux_of_nodup symbols [] hnd (by simp)
  · intro hfr
    have hf : ∀ s e, (Fred.fetch_data env transport s e).1 =
        Except.ok (fredExtract (transport e.requests.length (fredParams kF s))) ∧
        (Fred.fetch_data env transport s e).2.requests = e.requests ++ [fredParams kF s] := by
      intro s e
      obtain ⟨kvs, ht, hs⟩ := hfr e.requests.length (fredParams kF s)
      rw [ht]
      exact fred_fetch_data_ok env transport kF s e kvs ht hF hs
    obtain ⟨m, eff2, hbl, hkeys, -, -, -⟩ :=
      batch_loop_spec "Fetching data for series id: " (Fred.fetch_data env transport)
        (fun s i => fredExtract (transport i (fredParams kF s))) (fredParams kF)
        hf symbols [] eff
    refine ⟨m, eff2, hbl, ?_⟩
    rw [hkeys]
    simpa using dedupFirstAux_of_nodup symbols [] hnd (by simp)

/-- Witness for C4 on a two-identifier batch. -/
theorem C4_witness :
    ["AAPL", "GDP"].Nodup ∧
    ((∃ m eff2,
        AlphaVantage.fetch_batch_data envBoth transportData ["AAPL", "GDP"] Effects.empty =
          (.ok m, eff2) ∧ m.map Prod.fst = ["AAPL", "GDP"]) ∧
     ((∀ i p, ∃ kvs, transportData i p = TransportResult.success (Json.obj kvs) ∧
         validateSafe ((dictGet kvs "observations").getD (Json.arr [])) = true) →
      ∃ m eff2,
        Fred.fetch_batch_series envBoth transportData ["AAPL", "GDP"] Effects.empty =
          (.ok m, eff2) ∧ m.map Prod.fst = ["AAPL", "GDP"])) :=
  ⟨by decide,
   C4_batch_complete envBoth transportData "testkey" "fredkey" ["AAPL", "GDP"]
     Effects.empty rfl rfl (by decide) (fun _ _ => rfl)⟩

/-- C10: for every identifier list — duplicates included — each batch
fetcher still issues one GET per list element (in order, with the
element's own parameters), while the returned mapping has one entry per
DISTINCT identifier, each bound to the result of the LAST occurrence's
call (made observable here by a transport oracle that depends on the
call index).  Hence the mapping size is the number of distinct
identifiers, smaller than the list length when duplicates exist. -/
theorem C10_batch_duplicates (env : Env) (transport : Transport) (kAV kF : String)
    (symbols : List String) (eff : Effects)
    (hAV : env "API_ALPHA_VANTAGE_KEY" = some kAV)
    (hF : env "API_FREDAPI_KEY" = some kF)
    (hfr : ∀ i p, ∃ kvs, transport i p = TransportResult.success (Json.obj kvs) ∧
        validateSafe ((dictGet kvs "observations").getD (Json.arr [])) = true) :
    (∃ m eff2, AlphaVantage.fetch_batch_data env transport symbols eff = (.ok m, eff2) ∧
       eff2.requests = eff.requests ++ symbols.map (avParams kAV) ∧
       m.length = symbols.toFinset.card ∧
       (∀ s i, lastIdx symbols s = some i →
         dictGet m s = some (transport (eff.requests.length + i) (avParams kAV s)).toData)) ∧
    (∃ m eff2, Fred.fetch_batch_series env transport symbols eff = (.ok m, eff2) ∧
       eff2.requests = eff.requests ++ symbols.map (fredParams kF) ∧
       m.length = symbols.toFinset.card ∧
       (∀ s i, lastIdx symbols s = some i →
         dictGet m s =
           some (fredExtract (transport (eff.requests.length + i) (fredParams kF s))))) := by
  have hsafe : ∀ i p, validateSafe (transport i p).toData = true := by
    intro i p
    obtain ⟨kvs, ht, -⟩ := hfr i p
    rw [ht]
    rfl
  constructor
  · obtain ⟨m, eff2, hbl, hkeys, hreq, -, hlast⟩ :=
      batch_loop_spec "Fetching data for symbol: " (AlphaVantage.fetch_data env transport)
        (fun s i => (transport i (avParams kAV s)).toData) (avParams kAV)
        (fun s e => av_fetch_data_ok env transport kAV s e hAV (hsafe _ _)) symbols [] eff
    refine ⟨m, eff2, hbl, hreq, ?_, hlast⟩
    have : m.length = (m.map Prod.fst).length := (List.length_map m Prod.fst).symm
    rw [this, hkeys]
    simpa using dedupFirstAux_length_card symbols
  · have hf : ∀ s e, (Fred.fetch_data env transport s e).1 =
        Except.ok (fredExtract (transport e.requests.length (fredParams kF s))) ∧
        (Fred.fetch_data env transport s e).2.requests = e.requests ++ [fredParams kF s] := by
      intro s e
      obtain ⟨kvs, ht, hs⟩ := hfr e.requests.length (fredParams kF s)
      rw [ht]
      exact fred_fetch_data_ok env transport kF s e kvs ht hF hs
    obtain ⟨m, eff2, hbl, hkeys, hreq, -, hlast⟩ :=
      batch_loop_spec "Fetching data for series id: " (Fred.fetch_data env transport)
        (fun s i => fredExtract (transport i (fredParams kF s))) (fredParams kF)
        hf symbols [] eff
    refine ⟨m, eff2, hbl, hreq, ?_, hlast⟩
    have : m.length = (m.map Prod.fst).length := (List.length_map m Prod.fst).symm
    rw [this, hkeys]
    simpa using dedupFirstAux_length_card symbols

/-- Witness for C10 on the duplicate list `["A", "B", "A"]` against the
call-index-recording stub. -/
theorem C10_witness :
    envBoth "API_ALPHA_VANTAGE_KEY" = some "testkey" ∧
    ((∃ m eff2,
        AlphaVantage.fetch_batch_data envBoth transportIdx ["A", "B", "A"] Effects.empty =
          (.ok m, eff2) ∧
        eff2.requests = Effects.empty.requests ++ ["A", "B", "A"].map (avParams "testkey") ∧
        m.length = (["A", "B", "A"] : List String).toFinset.card ∧
        (∀ s i, lastIdx ["A", "B", "A"] s = some i →
          dictGet m s =
            some (transportIdx (Effects.empty.requests.length + i) (avParams "testkey" s)).toData)) ∧
     (∃ m eff2,
        Fred.fetch_batch_series envBoth transportIdx ["A", "B", "A"] Effects.empty =
          (.ok m, eff2) ∧
        eff2.requests = Effects.empty.requests ++ ["A", "B", "A"].map (fredParams "fredkey") ∧
        m.length = (["A", "B", "A"] : List String).toFinset.card ∧
        (∀ s i, lastIdx ["A", "B", "A"] s = some i →
          dictGet m s =
            some (fredExtract
              (transportIdx (Effects.empty.requests.length + i) (fredParams "fredkey" s)))))) :=
  ⟨rfl,
   C10_batch_duplicates envBoth transportIdx "testkey" "fredkey" ["A", "B", "A"]
     Effects.empty rfl rfl (fun i _ => ⟨[("call", Json.num i)], rfl, rfl⟩)⟩

/-- C8: with a successfully constructed downloader, `download_filings`
always returns normally whatever the delegated download calls raise: the
per-pair exception is caught, an error-level line is logged for the
failing pair, the loops continue, and exactly one delegated call is
attempted for every filing-type/ticker pair, in order. -/
theorem C8_download_filings_absorbs (emailValid : String → Bool) (env : Env)
    (dlGet : String → String → Nat → Option PyErr) (tickers : List String)
    (filing_types : List (String × String)) (limit : Nat) (eff : Effects)
    (dl : SecEdgar.Downloader)
    (hgd : (SecEdgar.get_downloader emailValid env).1 = .ok dl) :
    (SecEdgar.download_filings emailValid env dlGet tickers filing_types limit eff).1 =
      .ok () ∧
    (SecEdgar.download_filings emailValid env dlGet tickers filing_types limit eff).2.downloads =
      eff.downloads ++ tickers.flatMap (fun t => filing_types.map (fun ft => (ft.2, t))) ∧
    (∀ t ∈ tickers, ∀ d f : String, (d, f) ∈ filing_types → dlGet f t limit ≠ none →
      (⟨.error, "Error downloading " ++ d ++ " filings for " ++ t⟩ : LogEntry) ∈
        (SecEdgar.download_filings emailValid env dlGet tickers filing_types limit eff).2.logs) := by
  rcases hg : SecEdgar.get_downloader emailValid env with ⟨r, logs⟩
  rw [hg] at hgd
  dsimp only at hgd
  subst hgd
  refine ⟨?_, ?_, ?_⟩
  · simp [SecEdgar.download_filings, hg]
  · simp only [SecEdgar.download_filings, hg]
    rw [download_tickers_loop_downloads]
    simp [Effects.addLogs]
  · intro t hts d f hft herr
    simp only [SecEdgar.download_filings, hg]
    exact download_tickers_loop_logs_err dlGet tickers filing_types limit _ t d f hts hft herr

/-- Witness for C8: two tickers, two filing types, the delegated call
failing on one pair; all four pairs are attempted, the error is logged,
and the call returns normally. -/
theorem C8_witness :
    (SecEdgar.get_downloader (fun _ => true)
      (fun k => if k = "SEC_EDGAR_NAME" then some "Acme"
                else if k = "SEC_EDGAR_EMAIL" then some "a@b.com" else none)).1 =
      .ok ⟨"Acme", "a@b.com", "sec-fillings"⟩ ∧
    ((SecEdgar.download_filings (fun _ => true)
        (fun k => if k = "SEC_EDGAR_NAME" then some "Acme"
                  else if k = "SEC_EDGAR_EMAIL" then some "a@b.com" else none)
        (fun form ticker _ => if form = "10-K" ∧ ticker = "MSFT"
                              then some (.otherError "boom") else none)
        ["AAPL", "MSFT"] [("10-K", "10-K"), ("10-Q", "10-Q")] 5 Effects.empty).1 = .ok () ∧
     (SecEdgar.download_filings (fun _ => true)
        (fun k => if k = "SEC_EDGAR_NAME" then some "Acme"
                  else if k = "SEC_EDGAR_EMAIL" then some "a@b.com" else none)
        (fun form ticker _ => if form = "10-K" ∧ ticker = "MSFT"
                              then some (.otherError "boom") else none)
        ["AAPL", "MSFT"] [("10-K", "10-K"), ("10-Q", "10-Q")] 5 Effects.empty).2.downloads =
       Effects.empty.downloads ++
         ["AAPL", "MSFT"].flatMap
           (fun t => [("10-K", "10-K"), ("10-Q", "10-Q")].map (fun ft => (ft.2, t))) ∧
     (∀ t ∈ ["AAPL", "MSFT"], ∀ d f : String,
        (d, f) ∈ [("10-K", "10-K"), ("10-Q", "10-Q")] →
        (fun form ticker _ => if form = "10-K" ∧ ticker = "MSFT"
                              then some (PyErr.otherError "boom") else none) f t 5 ≠ none →
        (⟨.error, "Error downloading " ++ d ++ " filings for " ++ t⟩ : LogEntry) ∈
          (SecEdgar.download_filings (fun _ => true)
            (fun k => if k = "SEC_EDGAR_NAME" then some "Acme"
                      else if k = "SEC_EDGAR_EMAIL" then some "a@b.com" else none)
            (fun form ticker _ => if form = "10-K" ∧ ticker = "MSFT"
                                  then some (.otherError "boom") else none)
            ["AAPL", "MSFT"] [("10-K", "10-K"), ("10-Q", "10-Q")] 5 Effects.empty).2.logs)) :=
  ⟨rfl,
   C8_download_filings_absorbs (fun _ => true)
     (fun k => if k = "SEC_EDGAR_NAME" then some "Acme"
               else if k = "SEC_EDGAR_EMAIL" then some "a@b.com" else none)
     (fun form ticker _ => if form = "10-K" ∧ ticker = "MSFT"
                           then some (.otherError "boom") else none)
     ["AAPL", "MSFT"] [("10-K", "10-K"), ("10-Q", "10-Q")] 5 Effects.empty
     ⟨"Acme", "a@b.com", "sec-fillings"⟩ rfl⟩
